import Mathlib

/-!
Verification of the shorlabs backend deployment platform.

Shallow embedding of the deployment orchestration engine, the SQS task
dispatcher and the usage aggregation job of the shorlabs backend
(apps/backend).  Pure computations are translated directly; calls to
external collaborators (DynamoDB, CodeBuild, Lambda, CloudWatch, Autumn)
are modelled by explicit outcome values threaded through the functions.
-/

namespace Shorlabs

/-! ## String helpers (models of the Python str operations used) -/

/-- Model of Python str.upper (ASCII). -/
def strUpper (s : String) : String := String.mk (s.data.map Char.toUpper)

/-- Model of Python str.lower (ASCII). -/
def strLower (s : String) : String := String.mk (s.data.map Char.toLower)

/-- Model of Python str.strip(c): drop the character c from both ends. -/
def stripChar (c : Char) (s : String) : String :=
  String.mk (((s.data.dropWhile (fun a => a == c)).reverse.dropWhile (fun a => a == c)).reverse)

/-- Model of Python str.startswith on the underlying character lists. -/
def charsStartWith : List Char → List Char → Bool
  | _, [] => true
  | [], _ :: _ => false
  | c :: cs, p :: ps => c == p && charsStartWith cs ps

/-- Model of Python s.startswith(p). -/
def strStartsWith (s p : String) : Bool := charsStartWith s.data p.data

/-- Model of urllib.parse.urlparse(url).path for scheme://netloc/path URLs:
drop the scheme marker and everything before it, then drop the network
location, i.e. everything up to the first slash. -/
def urlPath (url : String) : String :=
  let rest :=
    if (url.splitOn "://").length ≥ 2 then
      String.intercalate "://" ((url.splitOn "://").drop 1)
    else url
  String.mk (rest.data.dropWhile (fun c => c != '/'))

/-- The while loop of extract_project_name (and the -+ substitution of
slugify) replaces consecutive dashes by a single dash until none remain:
every maximal run of dashes becomes one dash.  prevDash records whether the
previous kept character was a dash. -/
def collapseDashesAux : Bool → List Char → List Char
  | _, [] => []
  | prevDash, c :: rest =>
    if c == '-' then
      if prevDash then collapseDashesAux true rest
      else '-' :: collapseDashesAux true rest
    else c :: collapseDashesAux false rest

def collapseDashes (l : List Char) : List Char := collapseDashesAux false l

/-- extract_project_name (deployer/utils/common.py): take the last path
segment of the repository URL (dropping a .git suffix), lower-case it, map
every non-alphanumeric character to a dash, collapse consecutive dashes and
strip dashes from both ends. -/
def extract_project_name (github_url : String) : String :=
  let path := stripChar '/' (urlPath github_url)
  let path := if path.endsWith ".git" then path.dropRight 4 else path
  let name := ((path.splitOn "/").getLast?).getD ""
  let name := String.mk ((strLower name).data.map (fun c => if c.isAlphanum then c else '-'))
  let name := String.mk (collapseDashes name.data)
  stripChar '-' name

/-! ## Compute resource naming (deployer/orchestrator.py) -/

/-- The project-name computation at the top of deploy_project: with a truthy
project_id (present and non-empty) the name is the repo slug, a dash, and the
first 8 characters of the project id; otherwise the repo slug alone. -/
def deployProjectName (github_url : String) (project_id : Option String) : String :=
  let repo_name := extract_project_name github_url
  match project_id with
  | some pid => if pid = "" then repo_name else repo_name ++ "-" ++ pid.take 8
  | none => repo_name

/-! ## Environment variable filtering (deployer/aws/lambda_service.py, config.py) -/

def RESERVED_ENV_PREFIXES : List String :=
  ["AWS_", "LAMBDA_", "_X_AMZN_", "_AWS_XRAY_", "_HANDLER", "_RUNTIME_"]

def RESERVED_ENV_VARS : List String := ["_HANDLER", "TZ"]

/-- The reservation test of filter_env_vars: the upper-cased key starts with a
reserved prefix or equals a reserved exact name. -/
def isReservedEnvKey (key : String) : Bool :=
  RESERVED_ENV_PREFIXES.any (fun p => strStartsWith (strUpper key) p) ||
    RESERVED_ENV_VARS.contains (strUpper key)

/-- filter_env_vars (deployer/aws/lambda_service.py): split the environment
map, in iteration order, into the kept pairs and the skipped keys. -/
def filter_env_vars : List (String × String) → List (String × String) × List String
  | [] => ([], [])
  | (k, v) :: rest =>
    let r := filter_env_vars rest
    if isReservedEnvKey k then (r.1, k :: r.2) else ((k, v) :: r.1, r.2)

/-! ## CloudWatch metric reads (api/usage_aggregator.py) -/

/-- Outcome of one cloudwatch.get_metric_statistics call as seen by
get_cloudwatch_metric_sum: the call raised, or it returned a datapoint list,
each datapoint carrying an optional "Sum" value (read as dp.get("Sum", 0.0)). -/
inductive CwResult where
  | ok (datapoints : List (Option ℚ))
  | err (msg : String)
deriving DecidableEq

/-- get_cloudwatch_metric_sum: 0.0 on a raised exception, 0.0 on an empty
datapoint list, otherwise the sum of the datapoint values. -/
def get_cloudwatch_metric_sum (r : CwResult) : ℚ :=
  match r with
  | .err _ => 0
  | .ok dps =>
    if dps.isEmpty then 0
    else (dps.map (fun dp => dp.getD 0)).sum

/-- Python int() truncation toward zero on a rational. -/
def pyInt (q : ℚ) : Int := Int.tdiv q.num (q.den : Int)

/-- get_invocations: the metric sum of "Invocations", truncated by int(). -/
def get_invocations (r : CwResult) : Int := pyInt (get_cloudwatch_metric_sum r)

/-- get_gb_seconds: 0.0 when the summed "Duration" metric is 0, otherwise
(duration_ms / 1000) * (memory_mb / 1024). -/
def get_gb_seconds (r : CwResult) (memory_mb : ℚ) : ℚ :=
  let total_duration_ms := get_cloudwatch_metric_sum r
  if total_duration_ms = 0 then 0
  else (total_duration_ms / 1000) * (memory_mb / 1024)

/-! ## Usage aggregation per billing entity (api/usage_aggregator.py) -/

/-- get_lambda_function_name (deployer/aws/lambda_service.py); the Lambda
function name constant in config.py is "shorlabs". -/
def get_lambda_function_name (project_name : String) : String :=
  "shorlabs" ++ "-" ++ project_name

/-- One project row as read by aggregate_usage_metrics, together with the
CloudWatch responses its two metric fetches would observe. -/
structure AggProject where
  status : String
  function_name : Option String
  github_url : String
  memory : Int
  invResp : CwResult
  durResp : CwResult

/-- The function-name resolution inside the aggregation loop: prefer the
stored function_name, else derive from the github_url; none means the project
is skipped (continue) because the derived name is empty. -/
def resolveFunctionName (p : AggProject) : Option String :=
  match p.function_name with
  | some fn => some (get_lambda_function_name fn)
  | none =>
    let pn := extract_project_name p.github_url
    if pn = "" then none else some (get_lambda_function_name pn)

/-- What one project adds to (org_requests, org_gb_seconds) in the aggregation
loop: nothing when not LIVE, when the name cannot be resolved, or when both
fetched values fail the positivity guard. -/
def projectContribution (p : AggProject) : Int × ℚ :=
  if p.status ≠ "LIVE" then (0, 0)
  else
    match resolveFunctionName p with
    | none => (0, 0)
    | some _ =>
      let inv := get_invocations p.invResp
      let gb := get_gb_seconds p.durResp (p.memory : ℚ)
      if 0 < inv ∨ 0 < gb then (inv, gb) else (0, 0)

/-- The per-organization sums (org_requests, org_gb_seconds) accumulated over
the organization's projects in order. -/
def orgUsage (ps : List AggProject) : Int × ℚ :=
  ps.foldl (fun acc p =>
    let c := projectContribution p
    (acc.1 + c.1, acc.2 + c.2)) (0, 0)

/-- One _autumn_track_usage call issued by the aggregator. -/
structure TrackCall where
  customer_id : String
  feature_id : String
  value : ℚ
deriving DecidableEq

/-- The track calls aggregate_usage_metrics issues for one organization: none
unless some sum is positive; then "invocations" when the request sum is
positive and "compute" when the compute-seconds sum is positive. -/
def orgTrackCalls (org_id : String) (ps : List AggProject) : List TrackCall :=
  let u := orgUsage ps
  if 0 < u.1 ∨ 0 < u.2 then
    (if 0 < u.1 then [⟨org_id, "invocations", (u.1 : ℚ)⟩] else []) ++
      (if 0 < u.2 then [⟨org_id, "compute", u.2⟩] else [])
  else []

/-! ## Deployment pipeline (deployer/orchestrator.py, api/routes/projects.py) -/

inductive ProjStatus where
  | PENDING
  | BUILDING
  | LIVE
  | FAILED
deriving DecidableEq

inductive DepStatus where
  | IN_PROGRESS
  | SUCCEEDED
  | FAILED
deriving DecidableEq

/-- The Deployment record fields the pipeline writes. -/
structure DeploymentRecord where
  build_id : String
  status : DepStatus
  finished_at : Option Nat
deriving DecidableEq

/-- Outcomes of the external collaborator calls made by one run of
deploy_project, in pipeline order. -/
structure DepWorld where
  github_token : Option String
  detect : Except String String
  ecr : Except String String
  codebuildSetup : Except String Unit
  startBuild : Except String String
  buildSucceeds : Bool
  provision : Except String String

/-- Python truthiness of the github_token argument. -/
def tokenPresent : Option String → Bool
  | none => false
  | some s => s != ""

/-- deploy_project (deployer/orchestrator.py): the build id the
on_build_start callback was invoked with (if the callback fired), together
with the overall outcome (function url and build id on success). -/
def deployProject (w : DepWorld) : Option String × Except String (String × String) :=
  if !tokenPresent w.github_token then
    (none, .error "github_token is required for authentication")
  else
    match w.detect with
    | .error e => (none, .error e)
    | .ok _ =>
      match w.ecr with
      | .error e => (none, .error e)
      | .ok _ =>
        match w.codebuildSetup with
        | .error e => (none, .error e)
        | .ok _ =>
          match w.startBuild with
          | .error e => (none, .error e)
          | .ok build_id =>
            if !w.buildSucceeds then (some build_id, .error "Build failed")
            else
              match w.provision with
              | .error e => (some build_id, .error e)
              | .ok url => (some build_id, .ok (url, build_id))

/-- The Project/Deployment state _run_deployment_sync leaves behind. -/
structure DBState where
  projectStatus : ProjStatus
  function_url : Option String
  deployment : Option DeploymentRecord
deriving DecidableEq

/-- _run_deployment_sync (api/routes/projects.py): the deployment record is
created IN_PROGRESS by the on_build_start callback; on success it is updated
to SUCCEEDED and the project to LIVE; on any pipeline exception the record
(when it exists) is updated to FAILED with a finished_at timestamp and the
project to FAILED.  now is the timestamp used for finished_at. -/
def runDeploymentSync (w : DepWorld) (now : Nat) : DBState :=
  let r := deployProject w
  let dep0 : Option DeploymentRecord :=
    r.1.map (fun bid => { build_id := bid, status := .IN_PROGRESS, finished_at := none })
  match r.2 with
  | .ok (url, _) =>
    { projectStatus := .LIVE
      function_url := some url
      deployment := dep0.map (fun d => { d with status := .SUCCEEDED, finished_at := some now }) }
  | .error _ =>
    { projectStatus := .FAILED
      function_url := none
      deployment := dep0.map (fun d => { d with status := .FAILED, finished_at := some now }) }

/-! ## SQS batch consumer (api/main.py) -/

/-- The two fields of a parsed SQS message body that _handle_sqs_event reads
by subscript (a KeyError when absent); every other field is read with .get
and a default and cannot raise. -/
structure ParsedBody where
  project_id : Option String
  github_url : Option String
deriving DecidableEq

/-- One record of a queue-delivered batch; body is none when the record body
fails to parse as JSON; world and now describe the deployment run the message
would trigger. -/
structure SqsRecord where
  messageId : String
  body : Option ParsedBody
  world : DepWorld
  now : Nat

/-- Processing of one record inside _handle_sqs_event: some final state when
the message is processed without raising, none when JSON parsing or the
required-field subscripts raise. -/
def processRecord (r : SqsRecord) : Option DBState :=
  match r.body with
  | none => none
  | some b =>
    match b.project_id, b.github_url with
    | some _, some _ => some (runDeploymentSync r.world r.now)
    | _, _ => none

def processRecordOk (r : SqsRecord) : Bool := (processRecord r).isSome

/-- _handle_sqs_event (api/main.py): process the batch sequentially in order
and return the messageIds reported in batchItemFailures. -/
def handleSqsEvent : List SqsRecord → List String
  | [] => []
  | r :: rs =>
    if processRecordOk r then handleSqsEvent rs
    else r.messageId :: handleSqsEvent rs

/-! ## Lambda create-or-update call ordering (deployer/aws/lambda_service.py) -/

/-- The Lambda API calls create_or_update_lambda can issue, in the order the
source issues them. -/
inductive LCall where
  | getFunction
  | updateFunctionCode
  | waitFunctionUpdated
  | updateFunctionConfiguration
  | createFunction
  | waitFunctionActive
  | getFunctionUrl
  | addPermission
  | createFunctionUrl
deriving DecidableEq

/-- _ensure_function_url: look the URL up; when absent, grant permission and
create the URL config. -/
def ensureFunctionUrlTrace (urlExists : Bool) : List LCall :=
  if urlExists then [.getFunctionUrl]
  else [.getFunctionUrl, .addPermission, .createFunctionUrl]

/-- The call trace of create_or_update_lambda. functionExists: get_function
succeeds; codeWaitOk: the function_updated waiter returns instead of raising
(when it raises, nothing further is issued). -/
def createOrUpdateLambdaTrace (functionExists codeWaitOk urlExists : Bool) : List LCall :=
  if functionExists then
    [.getFunction, .updateFunctionCode, .waitFunctionUpdated] ++
      (if codeWaitOk then
        LCall.updateFunctionConfiguration :: ensureFunctionUrlTrace urlExists
       else [])
  else
    [.getFunction, .createFunction, .waitFunctionActive] ++ ensureFunctionUrlTrace urlExists

/-! ## Subdomain allocation (api/db/dynamodb.py) -/

/-- The [\s_]+ → "-" substitution step of slugify; after the preceding
character filter no underscore remains, so each maximal whitespace run
becomes a single dash.  prevWs records whether the previous character was
whitespace. -/
def dashWhitespaceRunsAux : Bool → List Char → List Char
  | _, [] => []
  | prevWs, c :: rest =>
    if c.isWhitespace then
      if prevWs then dashWhitespaceRunsAux true rest
      else '-' :: dashWhitespaceRunsAux true rest
    else c :: dashWhitespaceRunsAux false rest

def dashWhitespaceRuns (l : List Char) : List Char := dashWhitespaceRunsAux false l

/-- slugify (api/db/dynamodb.py): lower-case, drop characters outside
[a-z0-9], whitespace and dash, turn whitespace runs into dashes, collapse
dash runs, strip dashes, truncate to 50 characters. -/
def slugify (text : String) : String :=
  let t := strLower text
  let t := t.data.filter (fun c => c.isLower || c.isDigit || c.isWhitespace || c == '-')
  let t := dashWhitespaceRuns t
  let t := collapseDashes t
  (stripChar '-' (String.mk t)).take 50

/-- The collision-retry loop of generate_unique_subdomain.  k is the loop
attempt counter, which also indexes the random draws: hex4 k is the short
random suffix drawn on attempt k, hex8 the long fallback suffix.  When the
incremented counter exceeds 10 the candidate just drawn is discarded and the
fallback is returned without a further store check. -/
def subdomainLoop (taken : String → Bool) (hex4 : Nat → String) (hex8 base : String) :
    Nat → String → String
  | k, cur =>
    if taken cur then
      let cand := base ++ "-" ++ hex4 k
      if k + 1 > 10 then base ++ "-" ++ hex8
      else subdomainLoop taken hex4 hex8 base (k + 1) cand
    else cur
termination_by k _ => 11 - k
decreasing_by omega

/-- The base slug generate_unique_subdomain starts from: the slugified
project name, falling back to "project" when the slug is empty. -/
def subdomainBase (project_name : String) : String :=
  let base0 := slugify project_name
  if base0 = "" then "project" else base0

/-- generate_unique_subdomain (api/db/dynamodb.py): slugify the project name
(falling back to "project" when the slug is empty) and run the collision
loop against the store. -/
def generate_unique_subdomain (taken : String → Bool) (hex4 : Nat → String) (hex8 : String)
    (project_name : String) : String :=
  let base := subdomainBase project_name
  subdomainLoop taken hex4 hex8 base 0 base

/-! ## Concrete fixtures used by the theorems -/

/-- A collaborator environment in which every pipeline step succeeds. -/
def okWorld : DepWorld :=
  { github_token := some "tok"
    detect := .ok "python"
    ecr := .ok "ecr-uri"
    codebuildSetup := .ok ()
    startBuild := .ok "build-1"
    buildSucceeds := true
    provision := .ok "https://fn.example" }

/-- A collaborator environment in which the remote build starts (so the
on_build_start callback fires) and then fails. -/
def buildFailWorld : DepWorld := { okWorld with buildSucceeds := false }

/-! ## Theorems -/

/-- C3: filter_env_vars partitions the environment map by the reserved-key
test: the kept map is exactly the non-reserved pairs with their original
values, the skipped list exactly the reserved keys, both in iteration order;
and the concrete example from the spec filters as stated. -/
theorem C3_filter_env_vars_partition (env : List (String × String)) :
    filter_env_vars env
      = (env.filter (fun kv => !isReservedEnvKey kv.1),
         (env.filter (fun kv => isReservedEnvKey kv.1)).map Prod.fst) ∧
    filter_env_vars [("AWS_FOO", "x"), ("MY_VAR", "y"), ("_HANDLER", "z")]
      = ([("MY_VAR", "y")], ["AWS_FOO", "_HANDLER"]) := by
  refine ⟨?_, by rfl⟩
  induction env with
  | nil => rfl
  | cons kv rest ih =>
    obtain ⟨k, v⟩ := kv
    by_cases h : isReservedEnvKey k = true <;>
      simp [filter_env_vars, List.filter_cons, h, ih]

/-- C4: the aggregator's compute-seconds value for a total in-window duration
d (ms) and memory m (MB) equals (d / 1000) * (m / 1024); it is 0 whenever the
duration is 0, for any memory, and is 4 at d = 2000, m = 2048. -/
theorem C4_compute_seconds (d m : ℚ) :
    get_gb_seconds (CwResult.ok [some d]) m = (d / 1000) * (m / 1024) ∧
    get_gb_seconds (CwResult.ok [some 0]) m = 0 ∧
    get_gb_seconds (CwResult.ok [some 2000]) 2048 = 4 := by
  refine ⟨?_, ?_, by norm_num [get_gb_seconds, get_cloudwatch_metric_sum]⟩
  · by_cases h : d = 0 <;>
      simp [get_gb_seconds, get_cloudwatch_metric_sum, h]
  · simp [get_gb_seconds, get_cloudwatch_metric_sum]

/-- C7: in the update branch of create_or_update_lambda the code-update call
is issued, then the function_updated wait, and only after that wait returns is
the configuration update issued: the wait is always in the trace, the code
update precedes it, no configuration update precedes it, and the
configuration update is in the trace exactly when the wait returned. -/
theorem C7_code_update_before_config (codeWaitOk urlExists : Bool) :
    LCall.waitFunctionUpdated ∈ createOrUpdateLambdaTrace true codeWaitOk urlExists ∧
    LCall.updateFunctionCode ∈
      (createOrUpdateLambdaTrace true codeWaitOk urlExists).takeWhile
        (fun c => c != LCall.waitFunctionUpdated) ∧
    ((createOrUpdateLambdaTrace true codeWaitOk urlExists).takeWhile
        (fun c => c != LCall.waitFunctionUpdated)).contains LCall.updateFunctionConfiguration
      = false ∧
    (createOrUpdateLambdaTrace true codeWaitOk urlExists).contains
        LCall.updateFunctionConfiguration = codeWaitOk := by
  cases codeWaitOk <;> cases urlExists <;> decide

/-- C9: get_cloudwatch_metric_sum is total and yields 0 on a raised
collaborator call and on an empty result set; hence get_invocations and
get_gb_seconds yield 0 there instead of raising, and a project whose two
telemetry fetches raise contributes to the aggregation exactly like a project
with no telemetry data at all. -/
theorem C9_metric_sum_total (m m2 : String) (mem : ℚ) (p : AggProject) :
    get_cloudwatch_metric_sum (CwResult.err m) = 0 ∧
    get_cloudwatch_metric_sum (CwResult.ok []) = 0 ∧
    get_invocations (CwResult.err m) = 0 ∧
    get_gb_seconds (CwResult.err m) mem = 0 ∧
    projectContribution { p with invResp := CwResult.err m, durResp := CwResult.err m2 }
      = projectContribution { p with invResp := CwResult.ok [], durResp := CwResult.ok [] } := by
  refine ⟨rfl, rfl, by show pyInt 0 = 0; decide,
    by simp [get_gb_seconds, get_cloudwatch_metric_sum], ?_⟩
  simp [projectContribution, resolveFunctionName, get_invocations, get_gb_seconds,
    get_cloudwatch_metric_sum, pyInt]

lemma stringDataInj (a b : String) (h : a.data = b.data) : a = b := by
  cases a
  cases b
  exact congrArg String.mk h

lemma stringAppendCancelLeft (a b c : String) (h : a ++ b = a ++ c) : b = c := by
  apply stringDataInj
  have hd := congrArg String.data h
  simp only [String.data_append] at hd
  exact List.append_cancel_left hd

/-- C1: whenever a deploy_project run raises, _run_deployment_sync ends the
run with the Project set FAILED; if the on_build_start callback had fired
(cb = some build id) the Deployment record created by it ends FAILED with a
finished_at timestamp, and if the callback never fired no Deployment record
exists. -/
theorem C1_failure_terminal_state (w : DepWorld) (now : Nat) (cb : Option String) (e : String)
    (h : deployProject w = (cb, Except.error e)) :
    (runDeploymentSync w now).projectStatus = ProjStatus.FAILED ∧
    (runDeploymentSync w now).deployment
      = cb.map (fun bid =>
          { build_id := bid, status := DepStatus.FAILED, finished_at := some now }) := by
  unfold runDeploymentSync
  rw [h]
  cases cb <;> simp

/-- Witness for C1: a concrete run in which the build starts (the callback
fires with build id "build-1") and then fails. -/
theorem C1_witness :
    (runDeploymentSync buildFailWorld 5).projectStatus = ProjStatus.FAILED ∧
    (runDeploymentSync buildFailWorld 5).deployment
      = some { build_id := "build-1", status := DepStatus.FAILED, finished_at := some 5 } := by
  have h := C1_failure_terminal_state buildFailWorld 5 (some "build-1") "Build failed" (by rfl)
  exact ⟨h.1, h.2⟩

/-- C2: with a non-empty project id, deploy_project targets the compute
resource named by the sanitized repo slug, a dash, and the first 8 characters
of the project id; so the name is a function of (github_url, project_id), and
two project ids differing in their first 8 characters give distinct resource
names for the same repository. -/
theorem C2_resource_name (url pid pid2 : String) (h : pid ≠ "") (h2 : pid2 ≠ "")
    (hne : pid.take 8 ≠ pid2.take 8) :
    deployProjectName url (some pid) = extract_project_name url ++ "-" ++ pid.take 8 ∧
    deployProjectName url (some pid) ≠ deployProjectName url (some pid2) := by
  constructor
  · simp [deployProjectName, h]
  · simp only [deployProjectName, if_neg h, if_neg h2]
    intro hcontra
    exact hne (stringAppendCancelLeft _ _ _ hcontra)

/-- Witness for C2 at a concrete repository URL and two project ids. -/
theorem C2_witness :
    deployProjectName "https://github.com/u/repo" (some "aaaaaaaa1")
        = extract_project_name "https://github.com/u/repo" ++ "-" ++ ("aaaaaaaa1").take 8 ∧
    deployProjectName "https://github.com/u/repo" (some "aaaaaaaa1")
        ≠ deployProjectName "https://github.com/u/repo" (some "bbbbbbbb2") :=
  C2_resource_name "https://github.com/u/repo" "aaaaaaaa1" "bbbbbbbb2"
    (by decide) (by decide) (by decide)

/-- The concrete three-message batch from the spec example: message 2's body
raises during processing, messages 1 and 3 process to completion. -/
def c5Batch : List SqsRecord :=
  [ { messageId := "id1"
      body := some { project_id := some "p1", github_url := some "https://github.com/u/r1" }
      world := okWorld
      now := 0 },
    { messageId := "id2", body := none, world := okWorld, now := 0 },
    { messageId := "id3"
      body := some { project_id := some "p3", github_url := some "https://github.com/u/r3" }
      world := okWorld
      now := 0 } ]

/-- C5: the SQS consumer walks the batch sequentially in order and returns
exactly the messageIds of the records whose processing raised, in batch
order; on the concrete 3-message batch where message 2 raises it returns
exactly ["id2"]. -/
theorem C5_batch_failures (records : List SqsRecord) :
    handleSqsEvent records
      = ((records.filter fun r => !processRecordOk r).map fun r => r.messageId) ∧
    handleSqsEvent c5Batch = ["id2"] := by
  refine ⟨?_, by rfl⟩
  induction records with
  | nil => rfl
  | cons r rs ih =>
    by_cases h : processRecordOk r = true <;>
      simp [handleSqsEvent, List.filter_cons, h, ih]

/-- The concrete project of the C8 spec example: LIVE, 1024 MB, two in-window
invocations of 500 ms and 1500 ms. -/
def c8Project : AggProject :=
  { status := "LIVE"
    function_name := some "proj-abc"
    github_url := "https://github.com/u/r"
    memory := 1024
    invResp := CwResult.ok [some 2]
    durResp := CwResult.ok [some 500, some 1500] }

/-- C8: for an organization processed by one aggregation run, a track call
with feature "invocations" is issued exactly when the summed request count is
positive, and one with feature "compute" exactly when the summed
compute-seconds is positive; the concrete example organization yields
compute-seconds 2, invocation count 2, and exactly the two track calls. -/
theorem C8_track_calls (org_id : String) (ps : List AggProject) :
    ((orgTrackCalls org_id ps).any fun c => c.feature_id == "invocations")
        = decide (0 < (orgUsage ps).1) ∧
    ((orgTrackCalls org_id ps).any fun c => c.feature_id == "compute")
        = decide (0 < (orgUsage ps).2) ∧
    orgUsage [c8Project] = (2, 2) ∧
    orgTrackCalls "org1" [c8Project]
      = [⟨"org1", "invocations", 2⟩, ⟨"org1", "compute", 2⟩] := by
  have husage : orgUsage [c8Project] = (2, 2) := by
    show (((0:Int) + (projectContribution c8Project).1,
           (0:ℚ) + (projectContribution c8Project).2)) = (2, 2)
    norm_num [projectContribution, c8Project, resolveFunctionName, get_invocations,
      get_gb_seconds, get_cloudwatch_metric_sum, pyInt]
  refine ⟨?_, ?_, husage, ?_⟩
  · by_cases h1 : 0 < (orgUsage ps).1 <;> by_cases h2 : 0 < (orgUsage ps).2 <;>
      simp [orgTrackCalls, h1, h2]
  · by_cases h1 : 0 < (orgUsage ps).1 <;> by_cases h2 : 0 < (orgUsage ps).2 <;>
      simp [orgTrackCalls, h1, h2]
  · simp [orgTrackCalls, husage]

/-- Invariant of the subdomain collision loop: starting at attempt k with
enough fuel, either the returned value is free in the store, or the loop hit
the fallback: it returns base-dash-hex8 unchecked, the current candidate was
taken, and every short-suffix candidate drawn from attempt k up to attempt 9
was taken. -/
lemma subdomainLoop_spec (taken : String → Bool) (hex4 : Nat → String) (hex8 base : String) :
    ∀ (n k : Nat) (cur : String), 10 ≤ k + n →
      taken (subdomainLoop taken hex4 hex8 base k cur) = false ∨
      (subdomainLoop taken hex4 hex8 base k cur = base ++ "-" ++ hex8 ∧
        taken cur = true ∧
        ∀ j, j < 10 - k → taken (base ++ "-" ++ hex4 (k + j)) = true) := by
  intro n
  induction n with
  | zero =>
    intro k cur hk
    rw [subdomainLoop]
    by_cases ht : taken cur = true
    · rw [if_pos ht, if_pos (by omega : k + 1 > 10)]
      exact Or.inr ⟨rfl, ht, fun j hj => absurd hj (by omega)⟩
    · rw [if_neg ht]
      exact Or.inl (by simpa using ht)
  | succ n ih =>
    intro k cur hk
    rw [subdomainLoop]
    by_cases ht : taken cur = true
    · rw [if_pos ht]
      by_cases hk10 : k + 1 > 10
      · rw [if_pos hk10]
        exact Or.inr ⟨rfl, ht, fun j hj => absurd hj (by omega)⟩
      · rw [if_neg hk10]
        rcases ih (k + 1) (base ++ "-" ++ hex4 k) (by omega) with hleft | ⟨hfb, hcand, hall⟩
        · exact Or.inl hleft
        · refine Or.inr ⟨hfb, ht, fun j hj => ?_⟩
          cases j with
          | zero => simpa using hcand
          | succ j2 =>
            have harith : k + (j2 + 1) = (k + 1) + j2 := by omega
            rw [harith]
            exact hall j2 (by omega)
    · rw [if_neg ht]
      exact Or.inl (by simpa using ht)

/-- Deterministic stand-ins for the short random suffix draws of the
counterexample run: attempt i draws the suffix "h" ++ i. -/
def c6Hex4 (i : Nat) : String := "h" ++ toString i

/-- A store state in which the base slug, every short-suffix candidate the
counterexample loop draws, and the long fallback candidate are all already
stored. -/
def c6Store : List String :=
  "my-project" :: (((List.range 11).map fun i => "my-project-" ++ c6Hex4 i) ++
    ["my-project-deadbeef"])

set_option maxRecDepth 10000 in
/-- C6 counterexample: against the store c6Store, generate_unique_subdomain
exhausts its retries and returns the fallback "my-project-deadbeef", a
subdomain under which a project is currently stored — so the allocation does
not always return an unstored value. -/
theorem C6_counterexample :
    generate_unique_subdomain (fun s => c6Store.contains s) c6Hex4 "deadbeef" "My Project"
        = "my-project-deadbeef" ∧
    c6Store.contains "my-project-deadbeef" = true := by
  constructor
  · show subdomainLoop _ _ _ _ 0 _ = _
    rw [subdomainLoop]; norm_num
    rw [subdomainLoop]; norm_num
    rw [subdomainLoop]; norm_num
    rw [subdomainLoop]; norm_num
    rw [subdomainLoop]; norm_num
    rw [subdomainLoop]; norm_num
    rw [subdomainLoop]; norm_num
    rw [subdomainLoop]; norm_num
    rw [subdomainLoop]; norm_num
    rw [subdomainLoop]; norm_num
    rw [subdomainLoop]; norm_num
    decide
  · rfl

/-- C6 amended: generate_unique_subdomain either returns a subdomain that is
not currently stored, or — only after the base slug and the ten short-suffix
retry candidates were all found taken — returns the long-suffix fallback
base ++ "-" ++ hex8 without a further store check. -/
theorem C6_amended_subdomain (taken : String → Bool) (hex4 : Nat → String) (hex8 : String)
    (project_name : String) :
    taken (generate_unique_subdomain taken hex4 hex8 project_name) = false ∨
    (generate_unique_subdomain taken hex4 hex8 project_name
        = subdomainBase project_name ++ "-" ++ hex8 ∧
      taken (subdomainBase project_name) = true ∧
      ((List.range 10).all fun j =>
          taken (subdomainBase project_name ++ "-" ++ hex4 j)) = true) := by
  have h := subdomainLoop_spec taken hex4 hex8 (subdomainBase project_name) 10 0
      (subdomainBase project_name) (by omega)
  have hg : generate_unique_subdomain taken hex4 hex8 project_name
      = subdomainLoop taken hex4 hex8 (subdomainBase project_name) 0
          (subdomainBase project_name) := rfl
  rcases h with hl | ⟨hfb, hbase, hall⟩
  · exact Or.inl (by rw [hg]; exact hl)
  · refine Or.inr ⟨by rw [hg]; exact hfb, hbase, ?_⟩
    rw [List.all_eq_true]
    intro j hj
    have hj10 : j < 10 - 0 := by simpa using List.mem_range.mp hj
    simpa using hall j hj10

/-- An SQS record whose body parses and carries a project_id but no
github_url field. -/
def c10BadRecord : SqsRecord :=
  { messageId := "bad1"
    body := some { project_id := some "p1", github_url := none }
    world := okWorld
    now := 0 }

/-- C10 counterexample: a message whose body parses and contains a project_id
but no github_url raises on the github_url subscript and is reported as
failed, so containing a project_id alone does not make a message count as
successful. -/
theorem C10_counterexample :
    (c10BadRecord.body.map fun b => b.project_id.isSome) = some true ∧
    handleSqsEvent [c10BadRecord] = ["bad1"] := by
  constructor <;> rfl

/-- processRecord raises exactly when the body fails to parse or one of the
two subscripted fields is missing. -/
lemma processRecordOk_eq (r : SqsRecord) :
    processRecordOk r
      = ((r.body.map fun b => b.project_id.isSome && b.github_url.isSome).getD false) := by
  unfold processRecordOk processRecord
  cases hb : r.body with
  | none => rfl
  | some b => cases hp : b.project_id <;> cases hg : b.github_url <;> simp [hp, hg]

/-- A record whose body carries both required fields, delivered into an
environment where the remote build starts and then fails. -/
def c10GoodRecord : SqsRecord :=
  { messageId := "good1"
    body := some { project_id := some "p1", github_url := some "https://github.com/u/r" }
    world := buildFailWorld
    now := 7 }

/-- C10 amended: _run_deployment_sync never raises in the model (it is a
total function into final states), so the consumer reports as failed exactly
the messages whose body does not parse or lacks project_id or github_url; a
message carrying both fields is counted successful even when its deployment
run fails, ending with the Project FAILED rather than a redelivery. -/
theorem C10_amended_consumer (records : List SqsRecord) :
    handleSqsEvent records
      = ((records.filter fun r =>
          !((r.body.map fun b => b.project_id.isSome && b.github_url.isSome).getD false)).map
          fun r => r.messageId) ∧
    handleSqsEvent [c10GoodRecord] = [] ∧
    processRecord c10GoodRecord = some (runDeploymentSync buildFailWorld 7) ∧
    (runDeploymentSync buildFailWorld 7).projectStatus = ProjStatus.FAILED := by
  refine ⟨?_, by rfl, by rfl, by rfl⟩
  induction records with
  | nil => rfl
  | cons r rs ih =>
    have hr := processRecordOk_eq r
    by_cases h : processRecordOk r = true
    · simp [handleSqsEvent, List.filter_cons, h, ← hr, ih]
    · simp [handleSqsEvent, List.filter_cons, h, ← hr, ih]

end Shorlabs
